import Mathlib

/-!
Verification development for the PokeSwipeRN swipe screen.

The swipe interaction controller (SwipeScreen), its release classifier, the
fetch-retry helper and the advance logic are embedded from the source file
of the SwipeScreen component. The context store (PokemonContext) and the
remote API client (pokeApi) are not part of the given sources; they are
modelled from the specification where marked. Animated transitions are
modelled by their end states: an animation that drives the drag offset to a
target is embedded as the assignment of that target, and the completion
callback body runs immediately after. Asynchronous fetches are embedded by
passing the stream of draw results (each draw either a decoded item or a
thrown error) explicitly as a list.
-/

set_option autoImplicit false

namespace PokeSwipe

/-- A reference to a type name inside a type slot, as decoded from the API
(the source reads `t.type.name`). -/
structure PokemonTypeRef where
  name : String
deriving DecidableEq, Repr

/-- One entry of the `types` array of a fetched item. -/
structure PokemonTypeSlot where
  type : PokemonTypeRef
deriving DecidableEq, Repr

/-- Modelled from the spec: an Item is a creature record with a numeric id,
a display name and a list of category tags (the `Pokemon` type of
`types/pokemon.ts`, which is not among the given sources; the fields used
by the SwipeScreen source are `id`, `name` and `types`). -/
structure Pokemon where
  id : Nat
  name : String
  types : List PokemonTypeSlot
deriving DecidableEq, Repr

/-- Modelled from the spec: a LikedItem is the derived, persisted subset of
an Item (the `LikedPokemon` type of `types/pokemon.ts`, not among the given
sources; the fields are those built in `swipeRight`). -/
structure LikedPokemon where
  id : Nat
  name : String
  imageUrl : String
  types : List String
deriving DecidableEq, Repr

/-- Modelled from the spec: `getOfficialArtworkUrl` of `services/pokeApi`
(not among the given sources) derives the image URL from the id as
`<artwork-base>/{id}.png`. -/
def getOfficialArtworkUrl (id : Nat) : String :=
  "artwork-base/" ++ toString id ++ ".png"

/-- Modelled from the spec: the process-wide collection state held by
`PokemonContext` (not among the given sources): the ordered sequence of
liked items and the set of seen numeric ids, here kept as a duplicate-free
list in insertion order. -/
structure CollectionState where
  likedPokemon : List LikedPokemon
  seenPokemonIds : List Nat
deriving DecidableEq, Repr

/-- Modelled from the spec: the `isLiked` accessor of the context store:
whether an id is already present in the liked collection. -/
def isLiked (ctx : CollectionState) (id : Nat) : Bool :=
  ctx.likedPokemon.any (fun p => p.id == id)

/-- Modelled from the spec: `addLikedPokemon` of the context store, add to
liked, idempotent by id: appends unless the id is already present. -/
def addLikedPokemon (ctx : CollectionState) (p : LikedPokemon) : CollectionState :=
  if isLiked ctx p.id then ctx
  else { ctx with likedPokemon := ctx.likedPokemon ++ [p] }

/-- Modelled from the spec: `addSeenPokemon` of the context store, mark an
id as seen: inserts it into the seen set unless already there. -/
def addSeenPokemon (ctx : CollectionState) (id : Nat) : CollectionState :=
  if ctx.seenPokemonIds.contains id then ctx
  else { ctx with seenPokemonIds := ctx.seenPokemonIds ++ [id] }

/-- The result of one call to `fetchRandomPokemon` of `services/pokeApi`
(not among the given sources): either a decoded item, or a thrown
network/decode error. A call of the fetch helper consumes a list of such
draw results, one per attempt; an exhausted list is treated as a thrown
error. -/
abbrev FetchResult := Except String Pokemon

/-- Minimum drag distance required to trigger a swipe action:
`SWIPE_THRESHOLD = width * 0.25`. -/
def SWIPE_THRESHOLD (width : ℚ) : ℚ :=
  width * 0.25

/-- Duration of the fly-out animation in milliseconds (`SWIPE_OUT_DURATION`). -/
def SWIPE_OUT_DURATION : Nat := 400

/-- The retry ceiling of the fetch helper (`maxAttempts` in `fetchPokemon`). -/
def maxAttempts : Nat := 10

/-- The do-while loop body of `fetchPokemon`: draw an item, count the
attempt, and loop while the drawn id has been seen and the attempt count is
below the ceiling. A thrown draw escapes the loop and is caught by the
try/catch that surrounds it, which returns null (`none`). -/
def fetchPokemonLoop (seen : List Nat) (max : Nat) :
    List FetchResult → Nat → Option Pokemon
  | [], _ => none
  | Except.error _ :: _, _ => none
  | Except.ok p :: rest, attempts =>
      if seen.contains p.id ∧ attempts + 1 < max then
        fetchPokemonLoop seen max rest (attempts + 1)
      else
        some p

/-- The fetch helper `fetchPokemon` of the SwipeScreen: tries to find an
item whose id is not yet seen, retrying up to `maxAttempts` draws, and
returns the last drawn item once an unseen id is found or the ceiling is
reached; any thrown error is caught and yields `none`. The image prefetch
side effect is fire-and-forget and has no effect on the returned value. -/
def fetchPokemon (seen : List Nat) (draws : List FetchResult) : Option Pokemon :=
  fetchPokemonLoop seen maxAttempts draws 0

/-- The state of the SwipeScreen component: the ambient collection state,
the current and prefetched items, the loading and error flags, the
animation re-entrancy guard and the drag offset (`position`). -/
structure ScreenState where
  ctx : CollectionState
  currentPokemon : Option Pokemon
  nextPokemon : Option Pokemon
  isInitialLoading : Bool
  error : Option String
  isAnimating : Bool
  position : ℚ × ℚ
deriving DecidableEq, Repr

/-- The state of a freshly mounted SwipeScreen over an empty store. -/
def initialScreenState : ScreenState :=
  { ctx := { likedPokemon := [], seenPokemonIds := [] }
    currentPokemon := none
    nextPokemon := none
    isInitialLoading := true
    error := none
    isAnimating := false
    position := (0, 0) }

/-- Builds the LikedItem recorded by `swipeRight` from the current item:
id, name, derived artwork URL, and the flattened type names. -/
def likedOf (p : Pokemon) : LikedPokemon :=
  { id := p.id
    name := p.name
    imageUrl := getOfficialArtworkUrl p.id
    types := p.types.map (fun t => t.type.name) }

/-- The gesture grant guard `onStartShouldSetPanResponder`: respond only
when not animating. -/
def onStartShouldSetPanResponder (s : ScreenState) : Bool :=
  !s.isAnimating

/-- The gesture grant guard `onMoveShouldSetPanResponder`: respond only
when not animating and the horizontal movement exceeds 5. -/
def onMoveShouldSetPanResponder (s : ScreenState) (dx : ℚ) : Bool :=
  !s.isAnimating && decide (|dx| > 5)

/-- The move handler `onPanResponderMove`: stores the drag offset as
`{ x: gesture.dx, y: gesture.dy * 0.5 }`. -/
def onPanResponderMove (s : ScreenState) (dx dy : ℚ) : ScreenState :=
  { s with position := (dx, dy * 0.5) }

/-- The reset branch `resetPosition`: a spring animation drives the offset
back to the center, ending at exactly (0, 0). -/
def resetPosition (s : ScreenState) : ScreenState :=
  { s with position := (0, 0) }

/-- The background prefetch `prefetchNext`: runs the fetch helper and, only
when it yields an item, stores it as the next item. -/
def prefetchNext (draws : List FetchResult) (s : ScreenState) : ScreenState :=
  match fetchPokemon s.ctx.seenPokemonIds draws with
  | some p => { s with nextPokemon := some p }
  | none => s

/-- The advance `moveToNext`: promote the prefetched item to current, mark
it seen, clear the next slot and start a new prefetch; without a prefetched
item, fetch a replacement, and only when that succeeds install it, mark it
seen and prefetch again. `draws` feeds the fallback fetch and `pre` feeds
the prefetch that follows a successful advance. -/
def moveToNext (draws pre : List FetchResult) (s : ScreenState) : ScreenState :=
  match s.nextPokemon with
  | some np =>
      prefetchNext pre
        { s with
          currentPokemon := some np
          ctx := addSeenPokemon s.ctx np.id
          nextPokemon := none }
  | none =>
      match fetchPokemon s.ctx.seenPokemonIds draws with
      | some p =>
          prefetchNext pre
            { s with
              currentPokemon := some p
              ctx := addSeenPokemon s.ctx p.id }
      | none => s

/-- The conditional statement at the start of the `swipeRight` completion
callback: add the current item to the liked collection unless there is no
current item or its id is already liked. -/
def likeCurrent (s : ScreenState) : ScreenState :=
  match s.currentPokemon with
  | some cp =>
      if isLiked s.ctx cp.id then s
      else { s with ctx := addLikedPokemon s.ctx (likedOf cp) }
  | none => s

/-- The completion callback of the `swipeRight` fly-out animation: add the
current item to the liked collection unless its id is already liked, reset
the offset to (0, 0), clear the animation guard and advance. -/
def swipeRightComplete (draws pre : List FetchResult) (s : ScreenState) : ScreenState :=
  moveToNext draws pre { likeCurrent s with position := (0, 0), isAnimating := false }

/-- The like action `swipeRight`: rejected while animating or without a
current item; otherwise sets the animation guard, flies the card out to the
right and runs the completion callback. -/
def swipeRight (width : ℚ) (draws pre : List FetchResult) (s : ScreenState) : ScreenState :=
  if s.isAnimating || s.currentPokemon.isNone then s
  else
    swipeRightComplete draws pre
      { s with isAnimating := true, position := (width * 1.5, 50) }

/-- The completion callback of the `swipeLeft` fly-out animation: reset the
offset to (0, 0), clear the animation guard and advance; nothing is saved. -/
def swipeLeftComplete (draws pre : List FetchResult) (s : ScreenState) : ScreenState :=
  moveToNext draws pre { s with position := (0, 0), isAnimating := false }

/-- The dislike action `swipeLeft`: rejected while animating or without a
current item; otherwise sets the animation guard, flies the card out to the
left and runs the completion callback. -/
def swipeLeft (width : ℚ) (draws pre : List FetchResult) (s : ScreenState) : ScreenState :=
  if s.isAnimating || s.currentPokemon.isNone then s
  else
    swipeLeftComplete draws pre
      { s with isAnimating := true, position := (-width * 1.5, 50) }

/-- The three outcomes a drag release is classified into. -/
inductive ReleaseOutcome where
  | commitRight
  | commitLeft
  | reset
deriving DecidableEq, Repr

/-- The release classifier of `onPanResponderRelease`: like beyond the
threshold to the right, dislike beyond it to the left, otherwise reset. -/
def releaseOutcome (width dx : ℚ) : ReleaseOutcome :=
  if dx > SWIPE_THRESHOLD width then ReleaseOutcome.commitRight
  else if dx < -SWIPE_THRESHOLD width then ReleaseOutcome.commitLeft
  else ReleaseOutcome.reset

/-- The release handler `onPanResponderRelease`: dispatches on the
classification of the horizontal drag offset. -/
def onPanResponderRelease (width dx : ℚ) (draws pre : List FetchResult)
    (s : ScreenState) : ScreenState :=
  match releaseOutcome width dx with
  | ReleaseOutcome.commitRight => swipeRight width draws pre s
  | ReleaseOutcome.commitLeft => swipeLeft width draws pre s
  | ReleaseOutcome.reset => resetPosition s

/-- The mount-time `init` effect: run the fetch helper; on success install
the item as current, mark it seen and start a prefetch; on failure set the
user-visible error message. Either way the initial-loading flag ends
cleared. -/
def init (draws pre : List FetchResult) (s : ScreenState) : ScreenState :=
  match fetchPokemon s.ctx.seenPokemonIds draws with
  | some p =>
      { prefetchNext pre
          { s with
            isInitialLoading := true
            currentPokemon := some p
            ctx := addSeenPokemon s.ctx p.id } with
        isInitialLoading := false }
  | none =>
      { s with
        isInitialLoading := false
        error := some "Failed to fetch Pokémon. Please try again." }

/-- An advance-inducing user action: a committed swipe in either direction,
carrying the draw streams its advance consumes. -/
inductive AdvanceOp where
  | right (draws pre : List FetchResult)
  | left (draws pre : List FetchResult)

/-- Applies one advance-inducing action to the screen state. -/
def applyOp (width : ℚ) (s : ScreenState) : AdvanceOp → ScreenState
  | AdvanceOp.right draws pre => swipeRight width draws pre s
  | AdvanceOp.left draws pre => swipeLeft width draws pre s

/-- Runs a sequence of advance-inducing actions. -/
def runOps (width : ℚ) (s : ScreenState) : List AdvanceOp → ScreenState
  | [] => s
  | op :: rest => runOps width (applyOp width s op) rest

/-- The spec state `Idle`: drag offset zero, no gesture or commit
animation active. -/
def Idle (s : ScreenState) : Prop :=
  s.position = (0, 0) ∧ s.isAnimating = false

instance : DecidablePred Idle := fun s => by
  unfold Idle; infer_instance

end PokeSwipe

namespace PokeSwipe

/-- A sample item used in concrete runs. -/
def pikachu : Pokemon :=
  { id := 25, name := "Pikachu", types := [{ type := { name := "electric" } }] }

/-- A second sample item used in concrete runs. -/
def bulbasaur : Pokemon :=
  { id := 1, name := "Bulbasaur"
    types := [{ type := { name := "grass" } }, { type := { name := "poison" } }] }

/-- A screen state holding a current item over an empty store. -/
def currentPikachuState : ScreenState :=
  { initialScreenState with currentPokemon := some pikachu }

lemma addSeenPokemon_liked (ctx : CollectionState) (id : Nat) :
    (addSeenPokemon ctx id).likedPokemon = ctx.likedPokemon := by
  unfold addSeenPokemon; split <;> rfl

lemma addSeenPokemon_cases (ctx : CollectionState) (id : Nat) :
    (addSeenPokemon ctx id).seenPokemonIds = ctx.seenPokemonIds ∨
    (addSeenPokemon ctx id).seenPokemonIds = ctx.seenPokemonIds ++ [id] := by
  unfold addSeenPokemon; split
  · exact Or.inl rfl
  · exact Or.inr rfl

lemma addLikedPokemon_seen (ctx : CollectionState) (p : LikedPokemon) :
    (addLikedPokemon ctx p).seenPokemonIds = ctx.seenPokemonIds := by
  unfold addLikedPokemon; split <;> rfl

lemma prefetchNext_ctx (pre : List FetchResult) (s : ScreenState) :
    (prefetchNext pre s).ctx = s.ctx := by
  unfold prefetchNext; split <;> rfl

lemma prefetchNext_current (pre : List FetchResult) (s : ScreenState) :
    (prefetchNext pre s).currentPokemon = s.currentPokemon := by
  unfold prefetchNext; split <;> rfl

lemma prefetchNext_isAnimating (pre : List FetchResult) (s : ScreenState) :
    (prefetchNext pre s).isAnimating = s.isAnimating := by
  unfold prefetchNext; split <;> rfl

lemma prefetchNext_position (pre : List FetchResult) (s : ScreenState) :
    (prefetchNext pre s).position = s.position := by
  unfold prefetchNext; split <;> rfl

lemma moveToNext_liked (draws pre : List FetchResult) (s : ScreenState) :
    (moveToNext draws pre s).ctx.likedPokemon = s.ctx.likedPokemon := by
  unfold moveToNext; split
  · rw [prefetchNext_ctx]; exact addSeenPokemon_liked _ _
  · split
    · rw [prefetchNext_ctx]; exact addSeenPokemon_liked _ _
    · rfl

lemma moveToNext_isAnimating (draws pre : List FetchResult) (s : ScreenState) :
    (moveToNext draws pre s).isAnimating = s.isAnimating := by
  unfold moveToNext; split
  · rw [prefetchNext_isAnimating]
  · split
    · rw [prefetchNext_isAnimating]
    · rfl

lemma moveToNext_seen_cases (draws pre : List FetchResult) (s : ScreenState) :
    (moveToNext draws pre s).ctx.seenPokemonIds = s.ctx.seenPokemonIds ∨
    ∃ id, (moveToNext draws pre s).ctx.seenPokemonIds = s.ctx.seenPokemonIds ++ [id] := by
  unfold moveToNext; split
  · rw [prefetchNext_ctx]
    rcases addSeenPokemon_cases s.ctx _ with h | h
    · exact Or.inl h
    · exact Or.inr ⟨_, h⟩
  · split
    · rw [prefetchNext_ctx]
      rcases addSeenPokemon_cases s.ctx _ with h | h
      · exact Or.inl h
      · exact Or.inr ⟨_, h⟩
    · exact Or.inl rfl

lemma moveToNext_noop (draws pre : List FetchResult) (s : ScreenState)
    (h1 : s.nextPokemon = none)
    (h2 : fetchPokemon s.ctx.seenPokemonIds draws = none) :
    moveToNext draws pre s = s := by
  unfold moveToNext; rw [h1, h2]

/-- C1: for every drag release with horizontal offset dx and threshold
T = 0.25 of the screen width, the classifier commits right exactly when
dx > T, commits left exactly when dx < -T, and resets exactly when
|dx| <= T, so a release at dx = T or dx = -T resets. -/
theorem releaseOutcome_classification (width dx : ℚ) (hw : 0 < width) :
    (releaseOutcome width dx = ReleaseOutcome.commitRight ↔ SWIPE_THRESHOLD width < dx) ∧
    (releaseOutcome width dx = ReleaseOutcome.commitLeft ↔ dx < -SWIPE_THRESHOLD width) ∧
    (releaseOutcome width dx = ReleaseOutcome.reset ↔ |dx| ≤ SWIPE_THRESHOLD width) := by
  have hT : (0 : ℚ) < SWIPE_THRESHOLD width := by
    have h25 : (0 : ℚ) < 0.25 := by norm_num
    simpa [SWIPE_THRESHOLD] using mul_pos hw h25
  unfold releaseOutcome
  split_ifs with h1 h2
  · exact ⟨⟨fun _ => h1, fun _ => rfl⟩,
      ⟨fun h => by simp at h, fun h => absurd h (by linarith)⟩,
      ⟨fun h => by simp at h, fun h => by rw [abs_le] at h; linarith⟩⟩
  · exact ⟨⟨fun h => by simp at h, fun h => absurd h h1⟩,
      ⟨fun _ => h2, fun _ => rfl⟩,
      ⟨fun h => by simp at h, fun h => by rw [abs_le] at h; linarith⟩⟩
  · have hle : dx ≤ SWIPE_THRESHOLD width := not_lt.mp h1
    have hge : -SWIPE_THRESHOLD width ≤ dx := not_lt.mp h2
    exact ⟨⟨fun h => by simp at h, fun h => absurd h h1⟩,
      ⟨fun h => by simp at h, fun h => absurd h h2⟩,
      ⟨fun _ => abs_le.mpr ⟨hge, hle⟩, fun _ => rfl⟩⟩

/-- Witness for C1: at width 400 the threshold is 100, and a release at
exactly dx = 100 resets. -/
theorem releaseOutcome_classification_witness :
    (0 : ℚ) < 400 ∧
    (releaseOutcome 400 100 = ReleaseOutcome.reset ↔ |(100 : ℚ)| ≤ SWIPE_THRESHOLD 400) :=
  ⟨by norm_num, (releaseOutcome_classification 400 100 (by norm_num)).2.2⟩

/-- Counterexample to C6: a move event with pointer delta (10, 8) does not
store the offset (10, 8); the stored vertical component is halved. -/
theorem onPanResponderMove_counterexample :
    (onPanResponderMove initialScreenState 10 8).position ≠ ((10 : ℚ), (8 : ℚ)) ∧
    (onPanResponderMove initialScreenState 10 8).position = ((10 : ℚ), (4 : ℚ)) := by
  constructor
  · intro h
    have h2 := congrArg Prod.snd h
    norm_num [onPanResponderMove] at h2
  · norm_num [onPanResponderMove]

/-- C6 amended: while dragging, the stored offset is (dx, dy * 0.5): the
horizontal component equals the pointer delta exactly, the vertical
component is half of it. -/
theorem onPanResponderMove_sets_offset (s : ScreenState) (dx dy : ℚ) :
    (onPanResponderMove s dx dy).position.1 = dx ∧
    (onPanResponderMove s dx dy).position.2 = dy / 2 := by
  constructor
  · rfl
  · show dy * 0.5 = dy / 2
    norm_num
    ring

/-- C7: a drag release within the threshold (|dx| <= T) during an active
gesture (no commit animation in flight) returns the controller to Idle with
offset exactly (0, 0) and leaves the liked collection unchanged. -/
theorem release_within_threshold_resets (width dx : ℚ) (draws pre : List FetchResult)
    (s : ScreenState) (hgesture : s.isAnimating = false)
    (h : |dx| ≤ SWIPE_THRESHOLD width) :
    Idle (onPanResponderRelease width dx draws pre s) ∧
    (onPanResponderRelease width dx draws pre s).ctx.likedPokemon = s.ctx.likedPokemon := by
  have hle := abs_le.mp h
  have h1 : ¬ dx > SWIPE_THRESHOLD width := not_lt.mpr hle.2
  have h2 : ¬ dx < -SWIPE_THRESHOLD width := not_lt.mpr hle.1
  unfold onPanResponderRelease releaseOutcome
  rw [if_neg h1, if_neg h2]
  exact ⟨⟨rfl, hgesture⟩, rfl⟩

/-- Witness for C7: at width 400 a release at the exact threshold dx = 100
resets the fresh screen to Idle and leaves the empty liked collection
unchanged. -/
theorem release_within_threshold_resets_witness :
    initialScreenState.isAnimating = false ∧
    |(100 : ℚ)| ≤ SWIPE_THRESHOLD 400 ∧
    (Idle (onPanResponderRelease 400 100 [] [] initialScreenState) ∧
      (onPanResponderRelease 400 100 [] [] initialScreenState).ctx.likedPokemon =
        initialScreenState.ctx.likedPokemon) :=
  ⟨rfl, by norm_num [SWIPE_THRESHOLD],
    release_within_threshold_resets 400 100 [] [] initialScreenState rfl
      (by norm_num [SWIPE_THRESHOLD])⟩

/-- C9: while a commit animation is in flight (isAnimating set), gesture
starts and moves are rejected and neither commit action has any effect;
each completion callback ends with the guard cleared, so a new gesture is
accepted only after the animation ran to completion. -/
theorem animating_blocks_gestures_and_commits (width dx : ℚ)
    (draws pre : List FetchResult) (s : ScreenState) (h : s.isAnimating = true) :
    onStartShouldSetPanResponder s = false ∧
    onMoveShouldSetPanResponder s dx = false ∧
    swipeRight width draws pre s = s ∧
    swipeLeft width draws pre s = s ∧
    (swipeRightComplete draws pre s).isAnimating = false ∧
    (swipeLeftComplete draws pre s).isAnimating = false := by
  refine ⟨?_, ?_, ?_, ?_, ?_, ?_⟩
  · simp [onStartShouldSetPanResponder, h]
  · simp [onMoveShouldSetPanResponder, h]
  · simp [swipeRight, h]
  · simp [swipeLeft, h]
  · unfold swipeRightComplete
    rw [moveToNext_isAnimating]
  · unfold swipeLeftComplete
    rw [moveToNext_isAnimating]

/-- Witness for C9: with a commit animation in flight on a concrete state,
gesture grant is refused and both commit actions are inert. -/
theorem animating_blocks_gestures_and_commits_witness :
    ({ currentPikachuState with isAnimating := true } : ScreenState).isAnimating = true ∧
    onStartShouldSetPanResponder { currentPikachuState with isAnimating := true } = false ∧
    swipeRight 400 [] [] { currentPikachuState with isAnimating := true } =
      { currentPikachuState with isAnimating := true } :=
  ⟨rfl,
    (animating_blocks_gestures_and_commits 400 0 [] []
      { currentPikachuState with isAnimating := true } rfl).1,
    (animating_blocks_gestures_and_commits 400 0 [] []
      { currentPikachuState with isAnimating := true } rfl).2.2.1⟩

/-- C10: an advance that finds no prefetched next item and whose
replacement fetch fails leaves the whole screen state unchanged: the
current item, the seen set, the liked collection and the error field are
exactly as before. -/
theorem moveToNext_failed_fetch_noop (draws pre : List FetchResult) (s : ScreenState)
    (h1 : s.nextPokemon = none)
    (h2 : fetchPokemon s.ctx.seenPokemonIds draws = none) :
    moveToNext draws pre s = s :=
  moveToNext_noop draws pre s h1 h2

/-- Witness for C10: on the fresh state, with a draw stream whose first
draw throws, the advance is a no-op. -/
theorem moveToNext_failed_fetch_noop_witness :
    initialScreenState.nextPokemon = none ∧
    fetchPokemon initialScreenState.ctx.seenPokemonIds [Except.error "network error"] = none ∧
    moveToNext [Except.error "network error"] [] initialScreenState = initialScreenState :=
  ⟨rfl, rfl,
    moveToNext_failed_fetch_noop [Except.error "network error"] [] initialScreenState rfl rfl⟩

end PokeSwipe

namespace PokeSwipe

lemma addLikedPokemon_not_liked (ctx : CollectionState) (p : LikedPokemon)
    (h : isLiked ctx p.id = false) :
    (addLikedPokemon ctx p).likedPokemon = ctx.likedPokemon ++ [p] := by
  unfold addLikedPokemon
  rw [h]
  rfl

lemma not_isLiked_iff (ctx : CollectionState) (id : Nat) :
    isLiked ctx id = false ↔ id ∉ ctx.likedPokemon.map LikedPokemon.id := by
  unfold isLiked
  rw [← Bool.not_eq_true, List.any_eq_true]
  simp [List.mem_map]

lemma addLikedPokemon_nodup (ctx : CollectionState) (p : LikedPokemon)
    (h : (ctx.likedPokemon.map LikedPokemon.id).Nodup) :
    ((addLikedPokemon ctx p).likedPokemon.map LikedPokemon.id).Nodup := by
  unfold addLikedPokemon
  cases hl : isLiked ctx p.id with
  | true => exact h
  | false =>
      have hnm : p.id ∉ ctx.likedPokemon.map LikedPokemon.id := (not_isLiked_iff ctx p.id).mp hl
      show ((ctx.likedPokemon ++ [p]).map LikedPokemon.id).Nodup
      rw [List.map_append]
      rw [List.nodup_append]
      refine ⟨h, List.nodup_singleton _, ?_⟩
      intro a ha hb
      rw [List.map_singleton, List.mem_singleton] at hb
      subst hb
      exact hnm ha

lemma likeCurrent_seen (s : ScreenState) :
    (likeCurrent s).ctx.seenPokemonIds = s.ctx.seenPokemonIds := by
  unfold likeCurrent
  split
  · split
    · rfl
    · exact addLikedPokemon_seen _ _
  · rfl

lemma likeCurrent_next (s : ScreenState) :
    (likeCurrent s).nextPokemon = s.nextPokemon := by
  unfold likeCurrent
  split
  · split <;> rfl
  · rfl

lemma likeCurrent_liked_of_current (s : ScreenState) (cp : Pokemon)
    (hcur : s.currentPokemon = some cp) :
    (likeCurrent s).ctx.likedPokemon =
      if isLiked s.ctx cp.id then s.ctx.likedPokemon
      else s.ctx.likedPokemon ++ [likedOf cp] := by
  unfold likeCurrent
  split
  · next q hq =>
      rw [hq] at hcur
      injection hcur with hqc
      subst hqc
      cases hl : isLiked s.ctx q.id with
      | true => rfl
      | false => exact addLikedPokemon_not_liked s.ctx (likedOf q) hl
  · next hq =>
      rw [hq] at hcur
      cases hcur

lemma likeCurrent_nodup (s : ScreenState)
    (h : (s.ctx.likedPokemon.map LikedPokemon.id).Nodup) :
    ((likeCurrent s).ctx.likedPokemon.map LikedPokemon.id).Nodup := by
  unfold likeCurrent
  split
  · split
    · exact h
    · exact addLikedPokemon_nodup s.ctx (likedOf _) h
  · exact h

lemma completeInner_seen (s : ScreenState) :
    ({ likeCurrent s with position := (0, 0), isAnimating := false } :
        ScreenState).ctx.seenPokemonIds = s.ctx.seenPokemonIds :=
  likeCurrent_seen s

lemma guard_false {s : ScreenState} {cp : Pokemon} (hanim : s.isAnimating = false)
    (hcur : s.currentPokemon = some cp) :
    (s.isAnimating || s.currentPokemon.isNone) = false := by
  rw [hanim, hcur]
  rfl

lemma swipeRight_eq_complete (width : ℚ) (draws pre : List FetchResult) (s : ScreenState)
    (h : (s.isAnimating || s.currentPokemon.isNone) = false) :
    swipeRight width draws pre s =
      swipeRightComplete draws pre
        { s with isAnimating := true, position := (width * 1.5, 50) } := by
  unfold swipeRight
  rw [h]
  rfl

lemma swipeLeft_eq_complete (width : ℚ) (draws pre : List FetchResult) (s : ScreenState)
    (h : (s.isAnimating || s.currentPokemon.isNone) = false) :
    swipeLeft width draws pre s =
      swipeLeftComplete draws pre
        { s with isAnimating := true, position := (-width * 1.5, 50) } := by
  unfold swipeLeft
  rw [h]
  rfl

lemma swipeRightComplete_liked (draws pre : List FetchResult) (s : ScreenState) (cp : Pokemon)
    (hcur : s.currentPokemon = some cp) :
    (swipeRightComplete draws pre s).ctx.likedPokemon =
      if isLiked s.ctx cp.id then s.ctx.likedPokemon
      else s.ctx.likedPokemon ++ [likedOf cp] := by
  unfold swipeRightComplete
  rw [moveToNext_liked]
  exact likeCurrent_liked_of_current s cp hcur

lemma swipeRight_liked (width : ℚ) (draws pre : List FetchResult)
    (s : ScreenState) (cp : Pokemon)
    (hanim : s.isAnimating = false) (hcur : s.currentPokemon = some cp) :
    (swipeRight width draws pre s).ctx.likedPokemon =
      if isLiked s.ctx cp.id then s.ctx.likedPokemon
      else s.ctx.likedPokemon ++ [likedOf cp] := by
  rw [swipeRight_eq_complete width draws pre s (guard_false hanim hcur)]
  exact swipeRightComplete_liked draws pre _ cp hcur

lemma swipeRight_nodup (width : ℚ) (draws pre : List FetchResult) (s : ScreenState)
    (h : (s.ctx.likedPokemon.map LikedPokemon.id).Nodup) :
    ((swipeRight width draws pre s).ctx.likedPokemon.map LikedPokemon.id).Nodup := by
  unfold swipeRight
  split
  · exact h
  · unfold swipeRightComplete
    rw [moveToNext_liked]
    exact likeCurrent_nodup
      { s with isAnimating := true, position := (width * 1.5, 50) } h

lemma swipeLeft_liked (width : ℚ) (draws pre : List FetchResult) (s : ScreenState) :
    (swipeLeft width draws pre s).ctx.likedPokemon = s.ctx.likedPokemon := by
  unfold swipeLeft
  split
  · rfl
  · unfold swipeLeftComplete
    rw [moveToNext_liked]

lemma applyOp_liked_nodup (width : ℚ) (s : ScreenState) (op : AdvanceOp)
    (h : (s.ctx.likedPokemon.map LikedPokemon.id).Nodup) :
    ((applyOp width s op).ctx.likedPokemon.map LikedPokemon.id).Nodup := by
  cases op with
  | right draws pre => exact swipeRight_nodup width draws pre s h
  | left draws pre =>
      show ((swipeLeft width draws pre s).ctx.likedPokemon.map LikedPokemon.id).Nodup
      rw [swipeLeft_liked]
      exact h

lemma runOps_liked_nodup (width : ℚ) (ops : List AdvanceOp) (s : ScreenState)
    (h : (s.ctx.likedPokemon.map LikedPokemon.id).Nodup) :
    ((runOps width s ops).ctx.likedPokemon.map LikedPokemon.id).Nodup := by
  induction ops generalizing s with
  | nil => exact h
  | cons op rest ih => exact ih (applyOp width s op) (applyOp_liked_nodup width s op h)

/-- C2: a commit-right on a current item appends exactly the LikedItem
derived from it when and only when its id is not already in the liked
collection; and across any sequence of commits, ids in the liked collection
stay pairwise distinct. -/
theorem swipeRight_append_iff_new (width : ℚ) :
    (∀ (draws pre : List FetchResult) (s : ScreenState) (cp : Pokemon),
       s.isAnimating = false → s.currentPokemon = some cp →
       (swipeRight width draws pre s).ctx.likedPokemon =
         if isLiked s.ctx cp.id then s.ctx.likedPokemon
         else s.ctx.likedPokemon ++ [likedOf cp]) ∧
    (∀ (s : ScreenState) (ops : List AdvanceOp),
       (s.ctx.likedPokemon.map LikedPokemon.id).Nodup →
       ((runOps width s ops).ctx.likedPokemon.map LikedPokemon.id).Nodup) :=
  ⟨fun draws pre s cp hanim hcur => swipeRight_liked width draws pre s cp hanim hcur,
   fun s ops h => runOps_liked_nodup width ops s h⟩

/-- Witness for C2: a commit-right on a fresh state holding Pikachu appends
exactly its derived LikedItem. -/
theorem swipeRight_append_iff_new_witness :
    (swipeRight 400 [] [] currentPikachuState).ctx.likedPokemon = [likedOf pikachu] := by
  have h := (swipeRight_append_iff_new 400).1 [] [] currentPikachuState pikachu rfl rfl
  simpa [currentPikachuState, initialScreenState, isLiked] using h

lemma moveToNext_seen_grows (draws pre : List FetchResult) (s : ScreenState) :
    s.ctx.seenPokemonIds ⊆ (moveToNext draws pre s).ctx.seenPokemonIds ∧
    s.ctx.seenPokemonIds.length ≤ (moveToNext draws pre s).ctx.seenPokemonIds.length := by
  rcases moveToNext_seen_cases draws pre s with h | ⟨id, h⟩ <;> rw [h]
  · exact ⟨List.Subset.refl _, le_refl _⟩
  · exact ⟨List.subset_append_left _ _, by simp⟩

lemma swipeRightComplete_seen_grows (draws pre : List FetchResult) (s : ScreenState) :
    s.ctx.seenPokemonIds ⊆ (swipeRightComplete draws pre s).ctx.seenPokemonIds ∧
    s.ctx.seenPokemonIds.length ≤
      (swipeRightComplete draws pre s).ctx.seenPokemonIds.length := by
  unfold swipeRightComplete
  have h := moveToNext_seen_grows draws pre
    { likeCurrent s with position := (0, 0), isAnimating := false }
  rwa [completeInner_seen s] at h

lemma swipeLeftComplete_seen_grows (draws pre : List FetchResult) (s : ScreenState) :
    s.ctx.seenPokemonIds ⊆ (swipeLeftComplete draws pre s).ctx.seenPokemonIds ∧
    s.ctx.seenPokemonIds.length ≤
      (swipeLeftComplete draws pre s).ctx.seenPokemonIds.length := by
  unfold swipeLeftComplete
  exact moveToNext_seen_grows draws pre { s with position := (0, 0), isAnimating := false }

lemma swipeRight_seen_grows (width : ℚ) (draws pre : List FetchResult) (s : ScreenState) :
    s.ctx.seenPokemonIds ⊆ (swipeRight width draws pre s).ctx.seenPokemonIds ∧
    s.ctx.seenPokemonIds.length ≤ (swipeRight width draws pre s).ctx.seenPokemonIds.length := by
  unfold swipeRight
  split
  · exact ⟨List.Subset.refl _, le_refl _⟩
  · exact swipeRightComplete_seen_grows draws pre
      { s with isAnimating := true, position := (width * 1.5, 50) }

lemma swipeLeft_seen_grows (width : ℚ) (draws pre : List FetchResult) (s : ScreenState) :
    s.ctx.seenPokemonIds ⊆ (swipeLeft width draws pre s).ctx.seenPokemonIds ∧
    s.ctx.seenPokemonIds.length ≤ (swipeLeft width draws pre s).ctx.seenPokemonIds.length := by
  unfold swipeLeft
  split
  · exact ⟨List.Subset.refl _, le_refl _⟩
  · exact swipeLeftComplete_seen_grows draws pre
      { s with isAnimating := true, position := (-width * 1.5, 50) }

lemma applyOp_seen_grows (width : ℚ) (s : ScreenState) (op : AdvanceOp) :
    s.ctx.seenPokemonIds ⊆ (applyOp width s op).ctx.seenPokemonIds ∧
    s.ctx.seenPokemonIds.length ≤ (applyOp width s op).ctx.seenPokemonIds.length := by
  cases op with
  | right draws pre => exact swipeRight_seen_grows width draws pre s
  | left draws pre => exact swipeLeft_seen_grows width draws pre s

/-- C8: across any sequence of advances (commits left or right, with or
without a prefetched next item), no id is removed from the seen set and its
size never decreases. -/
theorem runOps_seen_grows (width : ℚ) (s : ScreenState) (ops : List AdvanceOp) :
    s.ctx.seenPokemonIds ⊆ (runOps width s ops).ctx.seenPokemonIds ∧
    s.ctx.seenPokemonIds.length ≤ (runOps width s ops).ctx.seenPokemonIds.length := by
  induction ops generalizing s with
  | nil => exact ⟨List.Subset.refl _, le_refl _⟩
  | cons op rest ih =>
      have h1 := applyOp_seen_grows width s op
      have h2 := ih (applyOp width s op)
      exact ⟨h1.1.trans h2.1, h1.2.trans h2.2⟩

end PokeSwipe

namespace PokeSwipe

lemma fetchPokemonLoop_stops (seen : List Nat) :
    ∀ (ps1 : List Pokemon) (p : Pokemon) (rest : List Pokemon) (a : Nat),
      a + ps1.length < maxAttempts →
      (∀ q ∈ ps1, seen.contains q.id = true) →
      seen.contains p.id = false →
      fetchPokemonLoop seen maxAttempts ((ps1 ++ p :: rest).map Except.ok) a = some p := by
  intro ps1
  induction ps1 with
  | nil =>
      intro p rest a ha hseen hunseen
      simp only [List.nil_append, List.map_cons]
      unfold fetchPokemonLoop
      rw [if_neg]
      intro hand
      rw [hunseen] at hand
      exact absurd hand.1 (by simp)
  | cons q ps1 ih =>
      intro p rest a ha hseen hunseen
      simp only [List.cons_append, List.map_cons]
      unfold fetchPokemonLoop
      rw [if_pos]
      · exact ih p rest (a + 1)
          (by simp only [List.length_cons] at ha; omega)
          (fun r hr => hseen r (List.mem_cons_of_mem q hr))
          hunseen
      · refine ⟨hseen q (List.mem_cons_self q ps1), ?_⟩
        simp only [List.length_cons] at ha
        omega

lemma fetchPokemonLoop_ceiling (seen : List Nat) :
    ∀ (ps1 : List Pokemon) (p : Pokemon) (rest : List FetchResult) (a : Nat),
      a + ps1.length + 1 = maxAttempts →
      (∀ q ∈ ps1, seen.contains q.id = true) →
      seen.contains p.id = true →
      fetchPokemonLoop seen maxAttempts ((ps1 ++ [p]).map Except.ok ++ rest) a = some p := by
  intro ps1
  induction ps1 with
  | nil =>
      intro p rest a ha hseen hp
      simp only [List.nil_append, List.map_cons, List.map_nil, List.cons_append,
        List.nil_append, List.length_nil] at ha ⊢
      unfold fetchPokemonLoop
      rw [if_neg]
      intro hand
      exact absurd hand.2 (by omega)
  | cons q ps1 ih =>
      intro p rest a ha hseen hp
      simp only [List.cons_append, List.map_cons, List.length_cons] at ha ⊢
      unfold fetchPokemonLoop
      rw [if_pos]
      · exact ih p rest (a + 1) (by omega)
          (fun r hr => hseen r (List.mem_cons_of_mem q hr)) hp
      · exact ⟨hseen q (List.mem_cons_self q ps1), by omega⟩

lemma fetchPokemonLoop_error (seen : List Nat) :
    ∀ (ps1 : List Pokemon) (e : String) (rest : List FetchResult) (a : Nat),
      a + ps1.length < maxAttempts →
      (∀ q ∈ ps1, seen.contains q.id = true) →
      fetchPokemonLoop seen maxAttempts
        (ps1.map Except.ok ++ Except.error e :: rest) a = none := by
  intro ps1
  induction ps1 with
  | nil =>
      intro e rest a ha hseen
      simp only [List.map_nil, List.nil_append]
      unfold fetchPokemonLoop
      rfl
  | cons q ps1 ih =>
      intro e rest a ha hseen
      simp only [List.map_cons, List.cons_append]
      unfold fetchPokemonLoop
      rw [if_pos]
      · exact ih e rest (a + 1)
          (by simp only [List.length_cons] at ha; omega)
          (fun r hr => hseen r (List.mem_cons_of_mem q hr))
      · refine ⟨hseen q (List.mem_cons_self q ps1), ?_⟩
        simp only [List.length_cons] at ha
        omega

/-- C3: the fetch helper draws while the drawn id is already seen, up to 10
total attempts. First part: a draw with an unseen id, arriving while the
attempt count is below the ceiling, stops the loop and is returned. Second
part: when the first 9 draws and the 10th all carry seen ids, the 10th
drawn item is returned rather than a failure, and any later draws are never
consumed. -/
theorem fetchPokemon_retry_contract :
    (∀ (seen : List Nat) (ps1 : List Pokemon) (p : Pokemon) (rest : List Pokemon),
       ps1.length < maxAttempts →
       (∀ q ∈ ps1, seen.contains q.id = true) →
       seen.contains p.id = false →
       fetchPokemon seen ((ps1 ++ p :: rest).map Except.ok) = some p) ∧
    (∀ (seen : List Nat) (ps1 : List Pokemon) (p : Pokemon) (rest : List FetchResult),
       ps1.length = maxAttempts - 1 →
       (∀ q ∈ ps1, seen.contains q.id = true) →
       seen.contains p.id = true →
       fetchPokemon seen ((ps1 ++ [p]).map Except.ok ++ rest) = some p) := by
  constructor
  · intro seen ps1 p rest hlen hseen hunseen
    exact fetchPokemonLoop_stops seen ps1 p rest 0 (by omega) hseen hunseen
  · intro seen ps1 p rest hlen hseen hp
    refine fetchPokemonLoop_ceiling seen ps1 p rest 0 ?_ hseen hp
    rw [hlen]
    decide

/-- Witness for C3: a first unseen draw is returned at once, and ten seen
draws in a row still return the tenth item. -/
theorem fetchPokemon_retry_contract_witness :
    fetchPokemon [] [Except.ok pikachu] = some pikachu ∧
    fetchPokemon [1] ((List.replicate 9 bulbasaur ++ [bulbasaur]).map Except.ok ++ []) =
      some bulbasaur :=
  ⟨fetchPokemon_retry_contract.1 [] [] pikachu [] (by decide) (by decide) rfl,
   fetchPokemon_retry_contract.2 [1] (List.replicate 9 bulbasaur) bulbasaur []
     (by decide) (by decide) rfl⟩

/-- Counterexample to C4: a thrown draw is not retried by the loop. With no
id seen yet, a first draw that throws makes the helper return its failure
signal even though a second draw would have produced an item; the same
stream without the failing draw succeeds. -/
theorem fetch_failure_not_retried :
    fetchPokemon [] [Except.error "network error", Except.ok pikachu] = none ∧
    fetchPokemon [] [Except.ok pikachu] = some pikachu :=
  ⟨rfl, rfl⟩

/-- C4 amended: a network or decode failure raised inside a fetch-helper
call is not recovered by the retry loop: the loop re-draws only on
already-seen ids, and the first thrown draw aborts the whole call, which
returns its failure signal. When the initial fetch fails this way, the
screen surfaces the user-visible retry prompt. -/
theorem fetch_failure_aborts_and_surfaces :
    (∀ (seen : List Nat) (ps1 : List Pokemon) (e : String) (rest : List FetchResult),
       ps1.length < maxAttempts →
       (∀ q ∈ ps1, seen.contains q.id = true) →
       fetchPokemon seen (ps1.map Except.ok ++ Except.error e :: rest) = none) ∧
    (∀ (draws pre : List FetchResult) (s : ScreenState),
       fetchPokemon s.ctx.seenPokemonIds draws = none →
       (init draws pre s).error = some "Failed to fetch Pokémon. Please try again." ∧
       (init draws pre s).isInitialLoading = false) := by
  constructor
  · intro seen ps1 e rest hlen hseen
    exact fetchPokemonLoop_error seen ps1 e rest 0 (by omega) hseen
  · intro draws pre s h
    unfold init
    rw [h]
    exact ⟨rfl, rfl⟩

/-- Witness for C4 amended: one seen draw followed by a thrown draw yields
the failure signal, and an initial fetch that throws at once surfaces the
retry prompt. -/
theorem fetch_failure_aborts_and_surfaces_witness :
    fetchPokemon [25] [Except.ok pikachu, Except.error "network error"] = none ∧
    (init [Except.error "network error"] [] initialScreenState).error =
      some "Failed to fetch Pokémon. Please try again." :=
  ⟨fetch_failure_aborts_and_surfaces.1 [25] [pikachu] "network error" []
      (by decide) (by decide),
   (fetch_failure_aborts_and_surfaces.2 [Except.error "network error"] []
      initialScreenState rfl).1⟩

end PokeSwipe

namespace PokeSwipe

lemma swipeRight_seen_cases (width : ℚ) (draws pre : List FetchResult) (s : ScreenState) :
    (swipeRight width draws pre s).ctx.seenPokemonIds = s.ctx.seenPokemonIds ∨
    ∃ id, (swipeRight width draws pre s).ctx.seenPokemonIds =
      s.ctx.seenPokemonIds ++ [id] := by
  unfold swipeRight
  split
  · exact Or.inl rfl
  · unfold swipeRightComplete
    rcases moveToNext_seen_cases draws pre
        { likeCurrent { s with isAnimating := true, position := (width * 1.5, 50) } with
          position := (0, 0), isAnimating := false } with h | ⟨id, h⟩
    · refine Or.inl ?_
      rw [h]
      exact likeCurrent_seen { s with isAnimating := true, position := (width * 1.5, 50) }
    · refine Or.inr ⟨id, ?_⟩
      rw [h]
      exact congrArg (fun l => l ++ [id])
        (likeCurrent_seen { s with isAnimating := true, position := (width * 1.5, 50) })

lemma swipeRight_seen_of_no_next (width : ℚ) (draws pre : List FetchResult) (s : ScreenState)
    (hnext : s.nextPokemon = none)
    (hfetch : fetchPokemon s.ctx.seenPokemonIds draws = none) :
    (swipeRight width draws pre s).ctx.seenPokemonIds = s.ctx.seenPokemonIds := by
  unfold swipeRight
  split
  · rfl
  · unfold swipeRightComplete
    have hX : ({ likeCurrent { s with isAnimating := true, position := (width * 1.5, 50) } with
        position := (0, 0), isAnimating := false } : ScreenState).nextPokemon = none :=
      (likeCurrent_next { s with isAnimating := true, position := (width * 1.5, 50) }).trans hnext
    have hXf : fetchPokemon
        ({ likeCurrent { s with isAnimating := true, position := (width * 1.5, 50) } with
          position := (0, 0), isAnimating := false } : ScreenState).ctx.seenPokemonIds draws =
        none := by
      rw [completeInner_seen { s with isAnimating := true, position := (width * 1.5, 50) }]
      exact hfetch
    rw [moveToNext_noop draws pre _ hX hXf]
    exact completeInner_seen { s with isAnimating := true, position := (width * 1.5, 50) }

lemma releaseOutcome_commits_right_at_200 :
    releaseOutcome 400 200 = ReleaseOutcome.commitRight := by
  have h : SWIPE_THRESHOLD 400 < 200 := by norm_num [SWIPE_THRESHOLD]
  unfold releaseOutcome
  rw [if_pos h]

lemma release_400_200_eq_swipeRight (draws pre : List FetchResult) (s : ScreenState) :
    onPanResponderRelease 400 200 draws pre s = swipeRight 400 draws pre s := by
  unfold onPanResponderRelease
  rw [releaseOutcome_commits_right_at_200]

/-- Counterexample to C5: from a fresh start whose initial fetch returns
the id-25 item and whose prefetch has already produced the id-1 item, the
commit-right release at dx = 200 (threshold 100) leaves the liked
collection at exactly the one id-25 entry, but the seen set is [25, 1]
rather than exactly [25]: the advance marks the promoted next item seen. -/
theorem fresh_like_scenario_counterexample :
    (onPanResponderRelease 400 200 [] []
        (init [Except.ok pikachu] [Except.ok bulbasaur] initialScreenState)).ctx.likedPokemon
      = [likedOf pikachu] ∧
    (onPanResponderRelease 400 200 [] []
        (init [Except.ok pikachu] [Except.ok bulbasaur] initialScreenState)).ctx.seenPokemonIds
      = [25, 1] ∧
    (onPanResponderRelease 400 200 [] []
        (init [Except.ok pikachu] [Except.ok bulbasaur] initialScreenState)).ctx.seenPokemonIds
      ≠ [25] := by
  rw [release_400_200_eq_swipeRight]
  refine ⟨rfl, rfl, ?_⟩
  intro h
  rw [show (swipeRight 400 [] []
      (init [Except.ok pikachu] [Except.ok bulbasaur] initialScreenState)).ctx.seenPokemonIds
      = [25, 1] from rfl] at h
  simp at h

/-- C5 amended: from a fresh start whose initial fetch returns an item with
id 25, a commit-right release at dx = 200 against threshold 100 makes the
liked collection exactly the one-element list of that item; the seen set
starts with 25 and gains at most one further id (the id of the item the
advance moves to), and is exactly [25] when no next item was prefetched and
the replacement fetch fails. -/
theorem fresh_like_scenario (p : Pokemon) (hp : p.id = 25)
    (pre draws pre2 : List FetchResult) :
    (onPanResponderRelease 400 200 draws pre2
        (init [Except.ok p] pre initialScreenState)).ctx.likedPokemon = [likedOf p] ∧
    (∃ rest, (onPanResponderRelease 400 200 draws pre2
        (init [Except.ok p] pre initialScreenState)).ctx.seenPokemonIds = 25 :: rest ∧
      rest.length ≤ 1) ∧
    ((init [Except.ok p] pre initialScreenState).nextPokemon = none →
     fetchPokemon [25] draws = none →
     (onPanResponderRelease 400 200 draws pre2
        (init [Except.ok p] pre initialScreenState)).ctx.seenPokemonIds = [25]) := by
  have hfetch0 : fetchPokemon initialScreenState.ctx.seenPokemonIds [Except.ok p] = some p :=
    rfl
  have hinit : init [Except.ok p] pre initialScreenState =
      { prefetchNext pre
          { initialScreenState with
            isInitialLoading := true
            currentPokemon := some p
            ctx := addSeenPokemon initialScreenState.ctx p.id } with
        isInitialLoading := false } := by
    unfold init
    rw [hfetch0]
  have hctx : (init [Except.ok p] pre initialScreenState).ctx =
      { likedPokemon := [], seenPokemonIds := [p.id] } := by
    rw [hinit]
    exact prefetchNext_ctx pre _
  have hcur : (init [Except.ok p] pre initialScreenState).currentPokemon = some p := by
    rw [hinit]
    exact prefetchNext_current pre _
  have hanim : (init [Except.ok p] pre initialScreenState).isAnimating = false := by
    rw [hinit]
    exact prefetchNext_isAnimating pre _
  rw [release_400_200_eq_swipeRight]
  refine ⟨?_, ?_, ?_⟩
  · rw [swipeRight_liked 400 draws pre2 _ p hanim hcur, hctx]
    simp [isLiked]
  · rcases swipeRight_seen_cases 400 draws pre2
        (init [Except.ok p] pre initialScreenState) with h | ⟨id, h⟩
    · exact ⟨[], by simp [h, hctx, hp], by simp⟩
    · exact ⟨[id], by simp [h, hctx, hp], by simp⟩
  · intro hnext hfetch
    have hf2 : fetchPokemon
        (init [Except.ok p] pre initialScreenState).ctx.seenPokemonIds draws = none := by
      rw [hctx, hp]
      exact hfetch
    rw [swipeRight_seen_of_no_next 400 draws pre2 _ hnext hf2, hctx, hp]

/-- Witness for C5 amended: the concrete fresh run with Pikachu, an empty
prefetch stream and failing advance draws likes exactly Pikachu. -/
theorem fresh_like_scenario_witness :
    pikachu.id = 25 ∧
    (onPanResponderRelease 400 200 [] []
        (init [Except.ok pikachu] [] initialScreenState)).ctx.likedPokemon
      = [likedOf pikachu] :=
  ⟨rfl, (fresh_like_scenario pikachu rfl [] [] []).1⟩

end PokeSwipe
